import Mathlib

/-!
The program single_paddle: the game loop of `src/single_paddle/single_paddle.cc`

A shallow embedding of the main loop of the one-paddle Pong game.

* C++ `int` values (rectangle fields, ball velocity) are modelled as `Int`.
  Signed overflow is undefined in C++, so the model describes exactly the
  executions in which no signed computation leaves the `int` range;
  `mainLoop_inv` shows that in every run from the initial state all of them
  stay within a few hundred pixels.
* `unsigned hits` is modelled as a `Nat` that is reduced modulo `2 ^ 32` by
  `++hits`, as unsigned arithmetic wraps.
* What the loop reads from SDL in one iteration (the queued events returned
  by `SDL_PollEvent`, the two keyboard-state entries it inspects, and
  whether `TTF_RenderText_Blended` succeeded) is the input of a tick.
* Text written to `std::cout` inside the loop is appended to the `cout`
  field of the state.
-/

namespace SinglePaddle

/-! ## Constants (lines 16-23) -/

def kWindowWidth : Int := 800
def kWindowHeight : Int := 600
def kPaddleWidth : Int := 100
def kPaddleHeight : Int := 20
def kPaddleSpeed : Int := 10
def kBallSize : Int := 20
def kBallSpeed : Int := 5

/-- Modulus of `unsigned` arithmetic (32-bit `unsigned int`). -/
def kUnsignedModulus : Nat := 2 ^ 32

/-! ## SDL types and constants used by the loop -/

/-- The `SDL_Rect` structure of SDL2: four `int` fields. -/
structure SDL_Rect where
  x : Int
  y : Int
  w : Int
  h : Int
  deriving DecidableEq, Repr

/-- The part of `SDL_Event` the loop reads: the event type and, for a
keyboard event, `key.keysym.sym`. -/
structure SDL_Event where
  type : Nat
  sym : Int
  deriving DecidableEq, Repr

/-- Event type `SDL_QUIT` (0x100 in SDL2). -/
def SDL_QUIT : Nat := 0x100
/-- Event type `SDL_KEYDOWN` (0x300 in SDL2). -/
def SDL_KEYDOWN : Nat := 0x300
/-- Key code `SDLK_s`, the character code of the letter s. -/
def SDLK_s : Int := 115
/-- Key code `SDLK_p`, the character code of the letter p. -/
def SDLK_p : Int := 112
/-- Key code `SDLK_m`, the character code of the letter m. -/
def SDLK_m : Int := 109
/-- Key code `SDLK_ESCAPE`, the character code 27. -/
def SDLK_ESCAPE : Int := 27

/-- `SDL_RectEmpty` of SDL2: a rectangle without area. -/
def SDL_RectEmpty (r : SDL_Rect) : Bool :=
  decide (r.w ≤ 0) || decide (r.h ≤ 0)

/-- Modelled from the spec: `SDL_HasIntersection` belongs to the SDL2 library,
which is not part of `src/`. The glossary calls it the axis-aligned rectangle
overlap test used as the collision predicate; the definition follows SDL2's
behaviour: an empty rectangle intersects nothing, and two rectangles
intersect when their horizontal and their vertical extents overlap in a
segment of positive length (rectangles sharing only an edge do not). -/
def SDL_HasIntersection (A B : SDL_Rect) : Bool :=
  if SDL_RectEmpty A || SDL_RectEmpty B then false
  else if min (A.x + A.w) (B.x + B.w) ≤ max A.x B.x then false
  else if min (A.y + A.h) (B.y + B.h) ≤ max A.y B.y then false
  else true

/-! ## Program state (lines 85-105) -/

/-- The local variables of `main` that the loop reads and writes, together
with the text written to standard output by the loop. -/
structure GameState where
  paddle : SDL_Rect
  ball : SDL_Rect
  ball_dx : Int
  ball_dy : Int
  running : Bool
  dark_mode : Bool
  paused : Bool
  hits : Nat
  cout : List String
  deriving DecidableEq, Repr

/-- The state built by lines 85-105, before the first iteration. -/
def initial : GameState where
  paddle :=
    { x := kWindowWidth / 2 - kPaddleWidth / 2
      y := kWindowHeight - kPaddleHeight - 10
      w := kPaddleWidth
      h := kPaddleHeight }
  ball :=
    { x := kWindowWidth / 2 - kBallSize / 2
      y := kWindowHeight / 2 - kBallSize / 2
      w := kBallSize
      h := kBallSize }
  ball_dx := kBallSpeed
  ball_dy := -kBallSpeed
  running := true
  dark_mode := true
  paused := false
  hits := 0
  cout := []

/-- What one iteration of the loop obtains from SDL. -/
structure TickInput where
  -- the events returned by the successive `SDL_PollEvent` calls
  events : List SDL_Event
  -- whether `keystate[SDL_SCANCODE_LEFT]` is nonzero
  left : Bool
  -- whether `keystate[SDL_SCANCODE_RIGHT]` is nonzero
  right : Bool
  -- whether `TTF_RenderText_Blended` returned a surface
  text_surface_ok : Bool
  deriving DecidableEq, Repr

/-! ## The help text (lines 30-34) -/

/-- The lines printed by `--help` after the title line. -/
def helpText : List String :=
  [ "Commands:\n"
  , "  ← / →     Move the paddle\n"
  , "  M         Change between light/dark mode\n"
  , "  P         Pause/resume game\n"
  , "  ESC       Leave the game\n" ]

/-! ## One iteration of the main loop (lines 110-155) -/

/-- Body of the `SDL_PollEvent` loop for one event (lines 111-117). -/
def handleEvent (s : GameState) (event : SDL_Event) : GameState :=
  if event.type = SDL_QUIT then
    { s with running := false }
  else if event.type = SDL_KEYDOWN ∧ event.sym = SDLK_s then
    { s with dark_mode := !s.dark_mode }
  else if event.type = SDL_KEYDOWN ∧ event.sym = SDLK_p then
    { s with paused := !s.paused }
  else
    s

/-- The loop `while (SDL_PollEvent(&event))` (lines 110-118): every queued
event is handled in order. -/
def pollEvents (s : GameState) (events : List SDL_Event) : GameState :=
  events.foldl handleEvent s

/-- Paddle movement and clamp (lines 122-130). -/
def movePaddle (s : GameState) (left right : Bool) : GameState :=
  if left then
    let x := s.paddle.x - kPaddleSpeed
    { s with paddle := { s.paddle with x := if x < 0 then 0 else x } }
  else if right then
    let x := s.paddle.x + kPaddleSpeed
    { s with paddle :=
        { s.paddle with
          x := if x + s.paddle.w > kWindowWidth then kWindowWidth - s.paddle.w else x } }
  else
    s

/-- Ball movement (lines 133-134). -/
def moveBall (s : GameState) : GameState :=
  { s with ball := { s.ball with x := s.ball.x + s.ball_dx, y := s.ball.y + s.ball_dy } }

/-- Condition of the horizontal wall bounce (line 137). -/
def wallContactX (s : GameState) : Bool :=
  decide (s.ball.x ≤ 0) || decide (s.ball.x + s.ball.w ≥ kWindowWidth)

/-- Wall bounce (lines 137-142). -/
def wallBounce (s : GameState) : GameState :=
  let s1 := if wallContactX s then { s with ball_dx := -s.ball_dx } else s
  if s1.ball.y ≤ 0 then { s1 with ball_dy := -s1.ball_dy } else s1

/-- Paddle and ball collision (lines 145-149). -/
def paddleCollision (s : GameState) : GameState :=
  if SDL_HasIntersection s.ball s.paddle then
    { s with
      hits := (s.hits + 1) % kUnsignedModulus
      ball_dy := -kBallSpeed
      ball := { s.ball with y := s.paddle.y - s.ball.h } }
  else
    s

/-- The text written when the ball is lost (line 152). -/
def lostMessage : String := "You lost!\n"

/-- Loss check (lines 151-154). -/
def lossCheck (s : GameState) : GameState :=
  if s.ball.y > kWindowHeight then
    { s with cout := s.cout ++ [lostMessage], running := false }
  else
    s

/-- The state right before the collision test of line 145: paddle moved, ball
moved, wall bounce applied. -/
def beforeCollision (s : GameState) (left right : Bool) : GameState :=
  wallBounce (moveBall (movePaddle s left right))

/-- The block guarded by `if (!paused)` (lines 121-154). -/
def physics (s : GameState) (left right : Bool) : GameState :=
  lossCheck (paddleCollision (beforeCollision s left right))

/-- One iteration of the main loop up to the rendering (lines 110-155). The
rendering code (lines 157-196) changes none of the state variables. -/
def tick (s : GameState) (i : TickInput) : GameState :=
  let s1 := pollEvents s i.events
  if s1.paused then s1 else physics s1 i.left i.right

/-- The main loop (lines 109-197) run on the inputs of successive iterations:
an iteration takes place only while `running` holds, and a failed text
surface creation leaves the loop (and the program) at once. -/
def mainLoop : GameState → List TickInput → GameState
  | s, [] => s
  | s, i :: rest =>
    if s.running then
      if i.text_surface_ok then mainLoop (tick s i) rest else tick s i
    else s

/-- Successive iterations applied to a state, whatever `running` is. -/
def ticks (s : GameState) (js : List TickInput) : GameState :=
  js.foldl tick s

/-! ## Predicates used to state the properties -/

/-- The iteration is active: the event drain leaves `paused` false, so the
physics block runs. -/
def active (s : GameState) (i : TickInput) : Bool :=
  !(pollEvents s i.events).paused

/-- The iteration is active and the moved ball rectangle intersects the paddle
rectangle at line 145. -/
def hitCounted (s : GameState) (i : TickInput) : Bool :=
  active s i &&
    SDL_HasIntersection (beforeCollision (pollEvents s i.events) i.left i.right).ball
      (beforeCollision (pollEvents s i.events) i.left i.right).paddle

/-- Every iteration of the list, run in order from `s`, is a paused one. -/
def allPaused : GameState → List TickInput → Bool
  | _, [] => true
  | s, j :: js => !active s j && allPaused (tick s j) js

/-- A key-down event of the key `sym`. -/
def keyDown (sym : Int) : SDL_Event := { type := SDL_KEYDOWN, sym := sym }

/-- A quit event. -/
def quitEvent : SDL_Event := { type := SDL_QUIT, sym := 0 }

/-- The event is a key-down of the key that line 113 tests for. -/
def isModeToggle (e : SDL_Event) : Bool :=
  decide (e.type = SDL_KEYDOWN) && decide (e.sym = SDLK_s)

/-- The branch of line 138 is taken in an active iteration from `s`: the moved
ball touches or passes a side wall, so `ball_dx` is negated. -/
def dxNegated (s : GameState) (i : TickInput) : Bool :=
  wallContactX (moveBall (movePaddle (pollEvents s i.events) i.left i.right))

/-- The branch of line 151 is taken in an active iteration from `s`: after the
collision step `ball.y` exceeds the window height. -/
def lossFires (s : GameState) (i : TickInput) : Bool :=
  decide ((paddleCollision (beforeCollision (pollEvents s i.events) i.left i.right)).ball.y
    > kWindowHeight)

/-- An input without events and without keys held. -/
def idle : TickInput := { events := [], left := false, right := false, text_surface_ok := true }

/-! ## Invariants of a run -/

/-- Horizontal invariant: the paddle stays inside the window, the ball stays
between the side walls on the 5-pixel grid and moves away from a wall it
touches. -/
def InvX (s : GameState) : Prop :=
  s.paddle.w = 100 ∧ 0 ≤ s.paddle.x ∧ s.paddle.x ≤ 700 ∧
  s.ball.w = 20 ∧ 0 ≤ s.ball.x ∧ s.ball.x ≤ 780 ∧ s.ball.x % 5 = 0 ∧
  (s.ball_dx = 5 ∨ s.ball_dx = -5) ∧
  (s.ball.x = 0 → s.ball_dx = 5) ∧ (s.ball.x = 780 → s.ball_dx = -5)

/-- Vertical invariant: the ball stays on the 5-pixel grid between the top wall
and one step below the window, and is inside the window while the loop runs. -/
def InvY (s : GameState) : Prop :=
  s.paddle.y = 570 ∧ s.paddle.h = 20 ∧ s.ball.h = 20 ∧
  0 ≤ s.ball.y ∧ s.ball.y ≤ 605 ∧ s.ball.y % 5 = 0 ∧
  (s.ball_dy = 5 ∨ s.ball_dy = -5) ∧ (s.ball.y = 0 → s.ball_dy = 5) ∧
  (s.running = true → s.ball.y ≤ 600)

/-! ## Concrete states and inputs -/

/-- A state with the ball right above the paddle at (390, 564), falling with
`ball_dy = 5`: the next move puts it at y = 569 = paddle.y - 1, overlapping
the paddle (x = 350, width 100, y = 570). -/
def aboveThePaddle : GameState :=
  { initial with ball := { x := 390, y := 564, w := 20, h := 20 }, ball_dy := 5 }

/-- A state with the hit counter at its largest value, `UINT_MAX = 2 ^ 32 - 1`,
and the ball falling onto the paddle: at (390, 550) with `ball_dy = 5`, so the
next move puts it at y = 555, overlapping the paddle (y = 570). -/
def counterAtMax : GameState :=
  { initial with
    ball := { x := 390, y := 550, w := 20, h := 20 }, ball_dy := 5, hits := 4294967295 }

/-- Inputs of a run in which nothing is pressed for 178 iterations and then P is
pressed: the ball has passed the paddle and is at y = 600, the loop is still
running, and the last iteration has paused the game. -/
def missedBallInputs : List TickInput :=
  List.replicate 178 idle ++
    [{ events := [keyDown SDLK_p], left := false, right := false, text_surface_ok := true }]

/-- A state whose ball falls beside the paddle: at (10, 600) with
`ball_dy = 5`. -/
def fallingBesideThePaddle : GameState :=
  { initial with ball := { x := 10, y := 600, w := 20, h := 20 }, ball_dy := 5 }

/-- An input with both arrow keys held and no events. -/
def bothKeys : TickInput := { events := [], left := true, right := true, text_surface_ok := true }

/-- An input whose only event is a key-down of `sym`, no arrow key held. -/
def pressKey (sym : Int) : TickInput :=
  { events := [keyDown sym], left := false, right := false, text_surface_ok := true }

/-- An input with three events: key-down P, key-down S, quit. -/
def pauseToggleQuit : TickInput :=
  { events := [keyDown SDLK_p, keyDown SDLK_s, quitEvent], left := true, right := false,
    text_surface_ok := true }

/-- An input whose only event is a key-down of P, with the right arrow key
held. -/
def pressPause : TickInput :=
  { events := [keyDown SDLK_p], left := false, right := true, text_surface_ok := true }

/-- A paused-state input without events, with the left arrow key held. -/
def holdLeft : TickInput :=
  { events := [], left := true, right := false, text_surface_ok := true }

/-- The state of the idle run after 77 iterations: the ball is at x = 775,
one step from the right wall. -/
def nearRightWall : GameState := mainLoop initial (List.replicate 77 idle)

/-! ## Frame lemmas for the event drain -/

theorem handleEvent_frame (s : GameState) (e : SDL_Event) :
    (handleEvent s e).paddle = s.paddle ∧ (handleEvent s e).ball = s.ball ∧
    (handleEvent s e).ball_dx = s.ball_dx ∧ (handleEvent s e).ball_dy = s.ball_dy ∧
    (handleEvent s e).hits = s.hits ∧ (handleEvent s e).cout = s.cout := by
  unfold handleEvent
  split_ifs <;> simp

theorem pollEvents_frame (es : List SDL_Event) (s : GameState) :
    (pollEvents s es).paddle = s.paddle ∧ (pollEvents s es).ball = s.ball ∧
    (pollEvents s es).ball_dx = s.ball_dx ∧ (pollEvents s es).ball_dy = s.ball_dy ∧
    (pollEvents s es).hits = s.hits ∧ (pollEvents s es).cout = s.cout := by
  induction es generalizing s with
  | nil => simp [pollEvents]
  | cons e es ih =>
    have h := ih (handleEvent s e)
    have he := handleEvent_frame s e
    simp only [pollEvents, List.foldl_cons] at h ⊢
    obtain ⟨h1, h2, h3, h4, h5, h6⟩ := h
    obtain ⟨e1, e2, e3, e4, e5, e6⟩ := he
    exact ⟨h1.trans e1, h2.trans e2, h3.trans e3, h4.trans e4, h5.trans e5, h6.trans e6⟩

theorem pollEvents_cons (s : GameState) (e : SDL_Event) (es : List SDL_Event) :
    pollEvents s (e :: es) = pollEvents (handleEvent s e) es := rfl

/-- A paused iteration is the event drain alone. -/
theorem tick_paused (s : GameState) (i : TickInput) (h : active s i = false) :
    tick s i = pollEvents s i.events := by
  simp only [active, Bool.not_eq_false'] at h
  simp [tick, h]

/-- An active iteration is the event drain followed by the physics block. -/
theorem tick_active (s : GameState) (i : TickInput) (h : active s i = true) :
    tick s i = physics (pollEvents s i.events) i.left i.right := by
  simp only [active, Bool.not_eq_true'] at h
  simp [tick, h]

theorem initial_InvX : InvX initial := by
  simp [InvX, initial, kWindowWidth, kPaddleWidth, kBallSize, kBallSpeed]

theorem initial_InvY : InvY initial := by
  simp [InvY, initial, kWindowHeight, kPaddleHeight, kBallSize, kBallSpeed]

theorem movePaddle_frame (s : GameState) (l r : Bool) :
    (movePaddle s l r).ball = s.ball ∧ (movePaddle s l r).ball_dx = s.ball_dx ∧
    (movePaddle s l r).ball_dy = s.ball_dy ∧ (movePaddle s l r).hits = s.hits ∧
    (movePaddle s l r).cout = s.cout ∧ (movePaddle s l r).running = s.running ∧
    (movePaddle s l r).paused = s.paused ∧ (movePaddle s l r).dark_mode = s.dark_mode ∧
    (movePaddle s l r).paddle.y = s.paddle.y ∧ (movePaddle s l r).paddle.w = s.paddle.w ∧
    (movePaddle s l r).paddle.h = s.paddle.h := by
  unfold movePaddle
  split_ifs <;> simp

theorem movePaddle_x (s : GameState) (l r : Bool) :
    (movePaddle s l r).paddle.x =
      if l then (if s.paddle.x - kPaddleSpeed < 0 then 0 else s.paddle.x - kPaddleSpeed)
      else if r then
        (if s.paddle.x + kPaddleSpeed + s.paddle.w > kWindowWidth then kWindowWidth - s.paddle.w
         else s.paddle.x + kPaddleSpeed)
      else s.paddle.x := by
  cases l <;> cases r <;> simp [movePaddle]

theorem wallBounce_frame (s : GameState) :
    (wallBounce s).ball = s.ball ∧ (wallBounce s).paddle = s.paddle ∧
    (wallBounce s).hits = s.hits ∧ (wallBounce s).cout = s.cout ∧
    (wallBounce s).running = s.running ∧ (wallBounce s).paused = s.paused ∧
    (wallBounce s).dark_mode = s.dark_mode := by
  by_cases h1 : wallContactX s = true <;> by_cases h2 : s.ball.y ≤ 0 <;>
    simp [wallBounce, h1, h2]

theorem wallBounce_dx (s : GameState) :
    (wallBounce s).ball_dx = if wallContactX s then -s.ball_dx else s.ball_dx := by
  by_cases h1 : wallContactX s = true <;> by_cases h2 : s.ball.y ≤ 0 <;>
    simp [wallBounce, h1, h2]

theorem wallBounce_dy (s : GameState) :
    (wallBounce s).ball_dy = if s.ball.y ≤ 0 then -s.ball_dy else s.ball_dy := by
  by_cases h1 : wallContactX s = true <;> by_cases h2 : s.ball.y ≤ 0 <;>
    simp [wallBounce, h1, h2]

theorem paddleCollision_frame (s : GameState) :
    (paddleCollision s).paddle = s.paddle ∧ (paddleCollision s).ball_dx = s.ball_dx ∧
    (paddleCollision s).cout = s.cout ∧ (paddleCollision s).running = s.running ∧
    (paddleCollision s).paused = s.paused ∧ (paddleCollision s).dark_mode = s.dark_mode ∧
    (paddleCollision s).ball.x = s.ball.x ∧ (paddleCollision s).ball.w = s.ball.w ∧
    (paddleCollision s).ball.h = s.ball.h := by
  unfold paddleCollision
  split_ifs <;> simp

theorem paddleCollision_hit (s : GameState) (h : SDL_HasIntersection s.ball s.paddle = true) :
    (paddleCollision s).hits = (s.hits + 1) % kUnsignedModulus ∧
    (paddleCollision s).ball_dy = -kBallSpeed ∧
    (paddleCollision s).ball.y = s.paddle.y - s.ball.h := by
  simp [paddleCollision, h]

theorem paddleCollision_miss (s : GameState) (h : SDL_HasIntersection s.ball s.paddle = false) :
    paddleCollision s = s := by
  simp [paddleCollision, h]

theorem lossCheck_frame (s : GameState) :
    (lossCheck s).paddle = s.paddle ∧ (lossCheck s).ball = s.ball ∧
    (lossCheck s).ball_dx = s.ball_dx ∧ (lossCheck s).ball_dy = s.ball_dy ∧
    (lossCheck s).hits = s.hits ∧ (lossCheck s).paused = s.paused ∧
    (lossCheck s).dark_mode = s.dark_mode := by
  unfold lossCheck
  split_ifs <;> simp

theorem lossCheck_fires (s : GameState) (h : s.ball.y > kWindowHeight) :
    (lossCheck s).cout = s.cout ++ [lostMessage] ∧ (lossCheck s).running = false := by
  simp [lossCheck, h]

theorem lossCheck_silent (s : GameState) (h : ¬ s.ball.y > kWindowHeight) :
    lossCheck s = s := by
  simp [lossCheck, h]

/-- Fields of the state right before the collision test. -/
theorem beforeCollision_fields (s : GameState) (l r : Bool) :
    (beforeCollision s l r).paddle = (movePaddle s l r).paddle ∧
    (beforeCollision s l r).ball.x = s.ball.x + s.ball_dx ∧
    (beforeCollision s l r).ball.y = s.ball.y + s.ball_dy ∧
    (beforeCollision s l r).ball.w = s.ball.w ∧
    (beforeCollision s l r).ball.h = s.ball.h ∧
    (beforeCollision s l r).hits = s.hits ∧
    (beforeCollision s l r).cout = s.cout ∧
    (beforeCollision s l r).running = s.running ∧
    (beforeCollision s l r).paused = s.paused ∧
    (beforeCollision s l r).dark_mode = s.dark_mode := by
  obtain ⟨m1, m2, m3, m4, m5, m6, m7, m8, -⟩ := movePaddle_frame s l r
  obtain ⟨w1, w2, w3, w4, w5, w6, w7⟩ := wallBounce_frame (moveBall (movePaddle s l r))
  simp only [beforeCollision, w1, w2, w3, w4, w5, w6, w7]
  simp [moveBall, m1, m2, m3, m4, m5, m6, m7, m8]

theorem beforeCollision_dx (s : GameState) (l r : Bool) :
    (beforeCollision s l r).ball_dx =
      if s.ball.x + s.ball_dx ≤ 0 ∨ s.ball.x + s.ball_dx + s.ball.w ≥ kWindowWidth
      then -s.ball_dx else s.ball_dx := by
  obtain ⟨m1, m2, -⟩ := movePaddle_frame s l r
  simp only [beforeCollision, wallBounce_dx, wallContactX]
  simp [moveBall, m1, m2]

theorem beforeCollision_dy (s : GameState) (l r : Bool) :
    (beforeCollision s l r).ball_dy =
      if s.ball.y + s.ball_dy ≤ 0 then -s.ball_dy else s.ball_dy := by
  obtain ⟨m1, -, m3, -⟩ := movePaddle_frame s l r
  simp only [beforeCollision, wallBounce_dy]
  simp [moveBall, m1, m3]

/-- Horizontal fields after the physics block. -/
theorem physics_horizontal (s : GameState) (l r : Bool) :
    (physics s l r).paddle = (movePaddle s l r).paddle ∧
    (physics s l r).ball.x = s.ball.x + s.ball_dx ∧
    (physics s l r).ball.w = s.ball.w ∧ (physics s l r).ball.h = s.ball.h ∧
    (physics s l r).ball_dx = (beforeCollision s l r).ball_dx ∧
    (physics s l r).paused = s.paused ∧ (physics s l r).dark_mode = s.dark_mode := by
  obtain ⟨b1, b2, -, b4, b5, -, -, -, b9, b10⟩ := beforeCollision_fields s l r
  obtain ⟨c1, c2, -, -, c5, c6, c7, c8, c9⟩ := paddleCollision_frame (beforeCollision s l r)
  obtain ⟨l1, l2, l3, -, -, l6, l7⟩ := lossCheck_frame (paddleCollision (beforeCollision s l r))
  simp only [physics, l1, l2, l3, l6, l7, c1, c2, c5, c6, c7, c8, c9, b1, b2, b4, b5, b9, b10]
  simp

theorem physics_InvX (s : GameState) (l r : Bool) (h : InvX s) : InvX (physics s l r) := by
  obtain ⟨h1, h2, h3, h4, h5, h6, h7, h8, h9, h10⟩ := h
  obtain ⟨p1, p2, p3, -, p5, -, -⟩ := physics_horizontal s l r
  obtain ⟨-, -, -, -, -, -, -, -, -, mw, -⟩ := movePaddle_frame s l r
  have mx := movePaddle_x s l r
  have dx := beforeCollision_dx s l r
  simp only [InvX, p1, p2, p3, p5, mw, mx, dx, h1, h4, kPaddleSpeed, kWindowWidth]
  refine ⟨trivial, ?_, ?_, trivial, ?_, ?_, ?_, ?_, ?_, ?_⟩ <;> (try split_ifs) <;> omega

/-- Vertical fields, hit counter and loss outcome after the physics block, in
terms of the collision test of line 145. -/
theorem physics_vertical (s : GameState) (l r : Bool) :
    (physics s l r).ball.y =
      (if SDL_HasIntersection (beforeCollision s l r).ball (beforeCollision s l r).paddle
       then s.paddle.y - s.ball.h else s.ball.y + s.ball_dy) ∧
    (physics s l r).ball_dy =
      (if SDL_HasIntersection (beforeCollision s l r).ball (beforeCollision s l r).paddle
       then -kBallSpeed else (if s.ball.y + s.ball_dy ≤ 0 then -s.ball_dy else s.ball_dy)) ∧
    (physics s l r).hits =
      (if SDL_HasIntersection (beforeCollision s l r).ball (beforeCollision s l r).paddle
       then (s.hits + 1) % kUnsignedModulus else s.hits) ∧
    (physics s l r).running =
      (if (physics s l r).ball.y > kWindowHeight then false else s.running) ∧
    (physics s l r).cout =
      (if (physics s l r).ball.y > kWindowHeight then s.cout ++ [lostMessage] else s.cout) ∧
    (physics s l r).paddle.y = s.paddle.y ∧ (physics s l r).paddle.h = s.paddle.h := by
  obtain ⟨b1, -, b3, -, b5, b6, b7, b8, -, -⟩ := beforeCollision_fields s l r
  obtain ⟨-, -, -, -, -, -, -, -, my, -, mh⟩ := movePaddle_frame s l r
  have bdy := beforeCollision_dy s l r
  obtain ⟨c1, -, c3, c4, -, -, -, -, -⟩ := paddleCollision_frame (beforeCollision s l r)
  obtain ⟨l1, l2, -, l4, l5, -, -⟩ := lossCheck_frame (paddleCollision (beforeCollision s l r))
  have hy : (physics s l r).ball.y = (paddleCollision (beforeCollision s l r)).ball.y := by
    simp only [physics, l2]
  have hrun : (physics s l r).running =
      (if (physics s l r).ball.y > kWindowHeight then false else s.running) := by
    rw [hy]
    by_cases hl : (paddleCollision (beforeCollision s l r)).ball.y > kWindowHeight
    · simp only [physics, (lossCheck_fires _ hl).2, hl, if_true]
    · simp only [physics, lossCheck_silent _ hl, hl, if_false, c4, b8]
  have hcout : (physics s l r).cout =
      (if (physics s l r).ball.y > kWindowHeight then s.cout ++ [lostMessage] else s.cout) := by
    rw [hy]
    by_cases hl : (paddleCollision (beforeCollision s l r)).ball.y > kWindowHeight
    · simp only [physics, (lossCheck_fires _ hl).1, hl, if_true, c3, b7]
    · simp only [physics, lossCheck_silent _ hl, hl, if_false, c3, b7]
  refine ⟨?_, ?_, ?_, hrun, hcout, ?_, ?_⟩
  · rw [hy]
    cases hI : SDL_HasIntersection (beforeCollision s l r).ball (beforeCollision s l r).paddle
    · simp [paddleCollision_miss _ hI, b3]
    · simp [(paddleCollision_hit _ hI).2.2, b1, my, b5]
  · simp only [physics, l4]
    cases hI : SDL_HasIntersection (beforeCollision s l r).ball (beforeCollision s l r).paddle
    · simp [paddleCollision_miss _ hI, bdy]
    · simp [(paddleCollision_hit _ hI).2.1]
  · simp only [physics, l5]
    cases hI : SDL_HasIntersection (beforeCollision s l r).ball (beforeCollision s l r).paddle
    · simp [paddleCollision_miss _ hI, b6]
    · simp [(paddleCollision_hit _ hI).1, b6]
  · simp only [physics, l1, c1, b1, my]
  · simp only [physics, l1, c1, b1, mh]

theorem physics_InvY (s : GameState) (l r : Bool) (h : InvY s) (hy : s.ball.y ≤ 600) :
    InvY (physics s l r) := by
  obtain ⟨h1, h2, h3, h4, h5, h6, h7, h8, -⟩ := h
  obtain ⟨v1, v2, -, v4, -, v6, v7⟩ := physics_vertical s l r
  obtain ⟨-, -, -, p4, -, -, -⟩ := physics_horizontal s l r
  have hrun : (physics s l r).running = true → (physics s l r).ball.y ≤ 600 := by
    intro hr
    rw [v4] at hr
    by_contra hc
    have : (physics s l r).ball.y > kWindowHeight := by
      simp only [kWindowHeight]; omega
    simp [this] at hr
  refine ⟨by rw [v6, h1], by rw [v7, h2], by rw [p4, h3], ?_, ?_, ?_, ?_, ?_, hrun⟩ <;>
    simp only [v1, v2, h1, h3, kBallSpeed] <;> split_ifs <;> omega

theorem pollEvents_InvX (s : GameState) (es : List SDL_Event) (h : InvX s) :
    InvX (pollEvents s es) := by
  obtain ⟨f1, f2, f3, -⟩ := pollEvents_frame es s
  simpa only [InvX, f1, f2, f3] using h

theorem tick_InvX (s : GameState) (i : TickInput) (h : InvX s) : InvX (tick s i) := by
  cases ha : active s i
  · rw [tick_paused s i ha]; exact pollEvents_InvX s i.events h
  · rw [tick_active s i ha]; exact physics_InvX _ _ _ (pollEvents_InvX s i.events h)

theorem ticks_InvX (js : List TickInput) (s : GameState) (h : InvX s) : InvX (ticks s js) := by
  induction js generalizing s with
  | nil => exact h
  | cons j js ih => exact ih (tick s j) (tick_InvX s j h)

theorem tick_InvY (s : GameState) (i : TickInput) (h : InvY s) (hr : s.running = true) :
    InvY (tick s i) := by
  obtain ⟨h1, h2, h3, h4, h5, h6, h7, h8, h9⟩ := h
  have hy : s.ball.y ≤ 600 := h9 hr
  obtain ⟨f1, f2, -, f4, -, -⟩ := pollEvents_frame i.events s
  cases ha : active s i
  · rw [tick_paused s i ha]
    simp only [InvY, f1, f2, f4]
    exact ⟨h1, h2, h3, h4, h5, h6, h7, h8, fun _ => hy⟩
  · rw [tick_active s i ha]
    refine physics_InvY _ _ _ ?_ (by rw [f2]; exact hy)
    simp only [InvY, f1, f2, f4]
    exact ⟨h1, h2, h3, h4, h5, h6, h7, h8, fun _ => hy⟩

/-- Every state of a run from a state satisfying the invariants satisfies
them. -/
theorem mainLoop_preserves (inputs : List TickInput) (s : GameState)
    (hx : InvX s) (hy : InvY s) : InvX (mainLoop s inputs) ∧ InvY (mainLoop s inputs) := by
  induction inputs generalizing s with
  | nil => exact ⟨hx, hy⟩
  | cons i rest ih =>
    simp only [mainLoop]
    split_ifs with hr ht
    · exact ih (tick s i) (tick_InvX s i hx) (tick_InvY s i hy hr)
    · exact ⟨tick_InvX s i hx, tick_InvY s i hy hr⟩
    · exact ⟨hx, hy⟩

/-- Every state of a run from the initial state satisfies both invariants; in
particular every `int` variable stays between -5 and 800. -/
theorem mainLoop_inv (inputs : List TickInput) :
    InvX (mainLoop initial inputs) ∧ InvY (mainLoop initial inputs) :=
  mainLoop_preserves inputs initial initial_InvX initial_InvY

/-! ## Runs of paused iterations -/

theorem allPaused_frame (js : List TickInput) (s : GameState) (h : allPaused s js = true) :
    (ticks s js).paddle = s.paddle ∧ (ticks s js).ball = s.ball ∧
    (ticks s js).ball_dx = s.ball_dx ∧ (ticks s js).ball_dy = s.ball_dy ∧
    (ticks s js).hits = s.hits := by
  induction js generalizing s with
  | nil => simp [ticks]
  | cons j js ih =>
    simp only [allPaused, Bool.and_eq_true, Bool.not_eq_true'] at h
    obtain ⟨f1, f2, f3, f4, f5, -⟩ := pollEvents_frame j.events s
    obtain ⟨t1, t2, t3, t4, t5⟩ := ih (tick s j) h.2
    have ht : ticks s (j :: js) = ticks (tick s j) js := rfl
    rw [ht, t1, t2, t3, t4, t5, tick_paused s j h.1]
    exact ⟨f1, f2, f3, f4, f5⟩

theorem dxNegated_eq (s : GameState) (i : TickInput) :
    dxNegated s i =
      decide (s.ball.x + s.ball_dx ≤ 0 ∨ s.ball.x + s.ball_dx + s.ball.w ≥ kWindowWidth) := by
  obtain ⟨-, f2, f3, -⟩ := pollEvents_frame i.events s
  obtain ⟨m1, m2, -⟩ := movePaddle_frame (pollEvents s i.events) i.left i.right
  simp [dxNegated, wallContactX, moveBall, m1, m2, f2, f3]

theorem tick_active_dx (s : GameState) (i : TickInput) (h : active s i = true) :
    (tick s i).ball_dx = (if dxNegated s i then -s.ball_dx else s.ball_dx) ∧
    (tick s i).ball.x = s.ball.x + s.ball_dx ∧
    (tick s i).ball.x = (beforeCollision (pollEvents s i.events) i.left i.right).ball.x := by
  obtain ⟨-, f2, f3, -⟩ := pollEvents_frame i.events s
  obtain ⟨-, p2, -, -, p5, -, -⟩ := physics_horizontal (pollEvents s i.events) i.left i.right
  obtain ⟨-, b2, -⟩ := beforeCollision_fields (pollEvents s i.events) i.left i.right
  have dx := beforeCollision_dx (pollEvents s i.events) i.left i.right
  rw [tick_active s i h, p2, p5, dx, b2, dxNegated_eq, f2, f3]
  simp

theorem tick_hits (s : GameState) (i : TickInput) :
    (tick s i).hits = if hitCounted s i then (s.hits + 1) % kUnsignedModulus else s.hits := by
  obtain ⟨-, -, -, -, f5, -⟩ := pollEvents_frame i.events s
  cases ha : active s i
  · rw [tick_paused s i ha]
    simp [hitCounted, ha, f5]
  · obtain ⟨-, -, v3, -⟩ := physics_vertical (pollEvents s i.events) i.left i.right
    rw [tick_active s i ha, v3, f5]
    simp [hitCounted, ha]

/-- State after an iteration that counted a paddle hit. -/
theorem tick_hit_fields (s : GameState) (i : TickInput) (hhit : hitCounted s i = true) :
    (tick s i).ball.y = (tick s i).paddle.y - (tick s i).ball.h ∧
    (tick s i).paddle.y = s.paddle.y ∧ (tick s i).ball.h = s.ball.h ∧
    (tick s i).ball_dy = -kBallSpeed ∧
    (tick s i).hits = (s.hits + 1) % kUnsignedModulus := by
  have hh := tick_hits s i
  rw [hhit] at hh
  simp only [hitCounted, Bool.and_eq_true] at hhit
  obtain ⟨ha, hI⟩ := hhit
  obtain ⟨f1, f2, -⟩ := pollEvents_frame i.events s
  obtain ⟨v1, v2, -, -, -, v6, -⟩ := physics_vertical (pollEvents s i.events) i.left i.right
  obtain ⟨-, -, -, p4, -⟩ := physics_horizontal (pollEvents s i.events) i.left i.right
  rw [tick_active s i ha] at hh ⊢
  rw [v1, v2, v6, p4, hI, f1, f2]
  simpa using hh

theorem tick_active_loss (s : GameState) (i : TickInput) (ha : active s i = true) :
    (tick s i).running =
      (if (tick s i).ball.y > kWindowHeight then false else (pollEvents s i.events).running) ∧
    (tick s i).cout =
      (if (tick s i).ball.y > kWindowHeight then s.cout ++ [lostMessage] else s.cout) ∧
    (lossFires s i = true ↔ (tick s i).ball.y > kWindowHeight) := by
  obtain ⟨-, -, -, -, -, f6⟩ := pollEvents_frame i.events s
  obtain ⟨-, -, -, v4, v5, -⟩ := physics_vertical (pollEvents s i.events) i.left i.right
  obtain ⟨-, l2, -⟩ :=
    lossCheck_frame (paddleCollision (beforeCollision (pollEvents s i.events) i.left i.right))
  rw [tick_active s i ha]
  refine ⟨v4, by rw [v5, f6], ?_⟩
  simp only [lossFires, physics, l2, decide_eq_true_eq]

/-! ## Effect of the event drain on the flags -/

theorem SDL_KEYDOWN_ne_SDL_QUIT : ¬ SDL_KEYDOWN = SDL_QUIT := by decide

theorem SDL_QUIT_ne_SDL_KEYDOWN : ¬ SDL_QUIT = SDL_KEYDOWN := by decide

theorem SDLK_p_ne_SDLK_s : ¬ SDLK_p = SDLK_s := by decide

theorem handleEvent_dark_mode (s : GameState) (e : SDL_Event) :
    (handleEvent s e).dark_mode = (if isModeToggle e then !s.dark_mode else s.dark_mode) := by
  unfold handleEvent isModeToggle
  by_cases h1 : e.type = SDL_QUIT
  · simp [h1, SDL_QUIT_ne_SDL_KEYDOWN]
  · by_cases h2 : e.type = SDL_KEYDOWN <;> by_cases h3 : e.sym = SDLK_s <;>
      by_cases h4 : e.sym = SDLK_p <;>
      simp [h1, h2, h3, h4, SDL_KEYDOWN_ne_SDL_QUIT, SDLK_p_ne_SDLK_s]

theorem handleEvent_running (s : GameState) (e : SDL_Event) :
    (handleEvent s e).running = (if e.type = SDL_QUIT then false else s.running) := by
  unfold handleEvent
  by_cases h1 : e.type = SDL_QUIT
  · simp [h1]
  · by_cases h2 : e.type = SDL_KEYDOWN <;> by_cases h3 : e.sym = SDLK_s <;>
      by_cases h4 : e.sym = SDLK_p <;>
      simp [h1, h2, h3, h4, SDL_KEYDOWN_ne_SDL_QUIT, SDLK_p_ne_SDLK_s]

theorem pollEvents_dark_mode (es : List SDL_Event) (s : GameState) :
    (pollEvents s es).dark_mode =
      (if es.countP isModeToggle % 2 = 1 then !s.dark_mode else s.dark_mode) := by
  induction es generalizing s with
  | nil => simp [pollEvents]
  | cons e es ih =>
    rw [pollEvents_cons, ih, handleEvent_dark_mode, List.countP_cons]
    cases hm : isModeToggle e
    · simp
    · by_cases hc : List.countP isModeToggle es % 2 = 1
      · have hn : ¬ (List.countP isModeToggle es + 1) % 2 = 1 := by omega
        simp [hc, hn]
      · have hn : (List.countP isModeToggle es + 1) % 2 = 1 := by omega
        simp [hc, hn]

theorem pollEvents_quit (es : List SDL_Event) (s : GameState)
    (h : ∃ e ∈ es, e.type = SDL_QUIT) : (pollEvents s es).running = false := by
  have hfalse : ∀ (l : List SDL_Event) (t : GameState), t.running = false →
      (pollEvents t l).running = false := by
    intro l
    induction l with
    | nil => intro t ht; exact ht
    | cons e l ih =>
      intro t ht
      rw [pollEvents_cons]
      apply ih
      rw [handleEvent_running, ht]
      simp
  induction es generalizing s with
  | nil => simp at h
  | cons e es ih =>
    rw [pollEvents_cons]
    by_cases he : e.type = SDL_QUIT
    · apply hfalse
      rw [handleEvent_running]
      simp [he]
    · apply ih
      obtain ⟨e2, hmem, hq⟩ := h
      rcases List.mem_cons.mp hmem with rfl | hmem
      · exact absurd hq he
      · exact ⟨e2, hmem, hq⟩

/-! ## The collision test -/

theorem SDL_HasIntersection_above (A B : SDL_Rect) (h : A.y + A.h ≤ B.y) :
    SDL_HasIntersection A B = false := by
  have h1 : min (A.y + A.h) (B.y + B.h) ≤ max A.y B.y :=
    le_trans (min_le_left _ _) (le_trans h (le_max_right _ _))
  unfold SDL_HasIntersection
  split_ifs <;> rfl

theorem hitCounted_false_of_above (s : GameState) (i : TickInput)
    (h : s.ball.y + s.ball_dy + s.ball.h ≤ s.paddle.y) : hitCounted s i = false := by
  obtain ⟨f1, f2, -, f4, -⟩ := pollEvents_frame i.events s
  obtain ⟨b1, -, b3, -, b5, -⟩ := beforeCollision_fields (pollEvents s i.events) i.left i.right
  obtain ⟨-, -, -, -, -, -, -, -, my, -⟩ := movePaddle_frame (pollEvents s i.events) i.left i.right
  have : SDL_HasIntersection (beforeCollision (pollEvents s i.events) i.left i.right).ball
      (beforeCollision (pollEvents s i.events) i.left i.right).paddle = false := by
    apply SDL_HasIntersection_above
    rw [b3, b5, b1, my, f1, f2, f4]
    exact h
  simp [hitCounted, this]

/-! ## The claims -/

/-- C1: in every run of the main loop from the initial state (paddle.x = 350,
paddle width 100, window width 800), whatever events and key states the
iterations receive, after every iteration `0 ≤ paddle.x` and
`paddle.x ≤ kWindowWidth - kPaddleWidth = 700`. -/
theorem C1_paddle_stays_in_window (inputs : List TickInput) :
    initial.paddle.x = 350 ∧
    0 ≤ (mainLoop initial inputs).paddle.x ∧
    (mainLoop initial inputs).paddle.x ≤ kWindowWidth - kPaddleWidth ∧
    (mainLoop initial inputs).paddle.x + (mainLoop initial inputs).paddle.w ≤ kWindowWidth ∧
    kWindowWidth - kPaddleWidth = 700 := by
  obtain ⟨⟨h1, h2, h3, -⟩, -⟩ := mainLoop_inv inputs
  refine ⟨by decide, h2, ?_, ?_, by decide⟩ <;> simp only [kWindowWidth, kPaddleWidth] <;> omega

/-- C2: in every state `s` of a run from the initial state, `ball.x` lies in
`[0, kWindowWidth - kBallSize] = [0, 780]`; in an active iteration from `s` the
value of `ball.x` after the wall-bounce step is the value after the iteration
and lies in that interval, and `ball_dx` is negated there exactly when the
branch of line 138 is taken; and when that iteration negates `ball_dx`, the
next active iteration (after any number of paused ones) does not negate it. -/
theorem C2_ball_between_side_walls (inputs : List TickInput) (i1 : TickInput)
    (js : List TickInput) (i2 : TickInput) :
    (0 ≤ (mainLoop initial inputs).ball.x ∧
      (mainLoop initial inputs).ball.x ≤ kWindowWidth - kBallSize) ∧
    (active (mainLoop initial inputs) i1 = true →
      0 ≤ (beforeCollision (pollEvents (mainLoop initial inputs) i1.events)
            i1.left i1.right).ball.x ∧
      (beforeCollision (pollEvents (mainLoop initial inputs) i1.events)
            i1.left i1.right).ball.x ≤ kWindowWidth - kBallSize ∧
      (tick (mainLoop initial inputs) i1).ball.x =
        (beforeCollision (pollEvents (mainLoop initial inputs) i1.events)
            i1.left i1.right).ball.x ∧
      (tick (mainLoop initial inputs) i1).ball_dx =
        (if dxNegated (mainLoop initial inputs) i1 then -(mainLoop initial inputs).ball_dx
         else (mainLoop initial inputs).ball_dx)) ∧
    (active (mainLoop initial inputs) i1 = true →
      dxNegated (mainLoop initial inputs) i1 = true →
      allPaused (tick (mainLoop initial inputs) i1) js = true →
      active (ticks (tick (mainLoop initial inputs) i1) js) i2 = true →
      dxNegated (ticks (tick (mainLoop initial inputs) i1) js) i2 = false ∧
      (tick (ticks (tick (mainLoop initial inputs) i1) js) i2).ball_dx =
        (ticks (tick (mainLoop initial inputs) i1) js).ball_dx) := by
  obtain ⟨hx, -⟩ := mainLoop_inv inputs
  have hx1 := tick_InvX _ i1 hx
  obtain ⟨-, -, -, h4, h5, h6, -⟩ := hx
  obtain ⟨-, -, -, g4, g5, g6, g7, g8, g9, g10⟩ := hx1
  refine ⟨⟨h5, by simp only [kWindowWidth, kBallSize]; omega⟩, ?_, ?_⟩
  · intro ha
    obtain ⟨d1, -, d3⟩ := tick_active_dx _ i1 ha
    rw [← d3]
    exact ⟨g5, by simp only [kWindowWidth, kBallSize]; omega, rfl, d1⟩
  · intro ha hn hp ha2
    obtain ⟨-, d2, -⟩ := tick_active_dx _ i1 ha
    obtain ⟨-, t2, t3, -⟩ := allPaused_frame js _ hp
    obtain ⟨e1, -, -⟩ := tick_active_dx _ i2 ha2
    rw [dxNegated_eq, h4, ← d2] at hn
    simp only [kWindowWidth, decide_eq_true_eq] at hn
    have hno : dxNegated (ticks (tick (mainLoop initial inputs) i1) js) i2 = false := by
      rw [dxNegated_eq, t2, t3, g4]
      simp only [kWindowWidth, decide_eq_false_iff_not]
      omega
    refine ⟨hno, ?_⟩
    rw [e1, hno]
    simp

theorem C2_ball_between_side_walls_witness :
    active nearRightWall idle = true ∧ dxNegated nearRightWall idle = true ∧
    nearRightWall.ball_dx = 5 ∧ (tick nearRightWall idle).ball.x = 780 ∧
    (tick nearRightWall idle).ball_dx = -5 ∧
    allPaused (tick nearRightWall idle) [pressPause, holdLeft] = true ∧
    active (ticks (tick nearRightWall idle) [pressPause, holdLeft]) pressPause = true ∧
    dxNegated (ticks (tick nearRightWall idle) [pressPause, holdLeft]) pressPause = false :=
  have h := (C2_ball_between_side_walls (List.replicate 77 idle) idle [pressPause, holdLeft]
    pressPause).2.2 (by decide) (by decide) (by decide) (by decide)
  ⟨by decide, by decide, by decide, by decide, by decide, by decide, by decide, h.1⟩

/-- C3 (as stated, refuted): from the state `counterAtMax`, where `hits` is
`2 ^ 32 - 1`, an active iteration in which the moved ball intersects the paddle
leaves `hits = 0`: the counter after the iteration is smaller than before. -/
theorem C3_counterexample_wraps :
    hitCounted counterAtMax idle = true ∧ counterAtMax.hits = 4294967295 ∧
    (tick counterAtMax idle).hits = 0 ∧
    ¬ ((tick counterAtMax idle).hits ≥ counterAtMax.hits) := by
  decide

/-- C3 (amended): for every state and every iteration, the hit counter after
the iteration is `(hits + 1) mod 2 ^ 32` when the iteration is active and the
moved ball rectangle intersects the paddle rectangle, and is unchanged
otherwise, whatever the ball velocity is; hence for every state with
`hits < 2 ^ 32 - 1` the counter does not decrease and is exactly one more on
such an intersection, and at `hits = 2 ^ 32 - 1` such an intersection leaves
it at 0. -/
theorem C3_hits_monotone (s : GameState) (i : TickInput) :
    (tick s i).hits = (if hitCounted s i then (s.hits + 1) % kUnsignedModulus else s.hits) ∧
    (hitCounted s i = true → (tick s i).hits = (s.hits + 1) % kUnsignedModulus) ∧
    (hitCounted s i = false → (tick s i).hits = s.hits) ∧
    (s.hits + 1 < kUnsignedModulus →
      (tick s i).hits ≥ s.hits ∧ (hitCounted s i = true → (tick s i).hits = s.hits + 1)) ∧
    (s.hits + 1 = kUnsignedModulus → hitCounted s i = true → (tick s i).hits = 0) := by
  have h := tick_hits s i
  refine ⟨h, ?_, ?_, ?_, ?_⟩
  · intro hh; rw [h, hh]; simp
  · intro hh; rw [h, hh]; simp
  · intro hlt
    have hmod : (s.hits + 1) % kUnsignedModulus = s.hits + 1 := Nat.mod_eq_of_lt hlt
    refine ⟨?_, ?_⟩
    · rw [h, hmod]; split_ifs <;> omega
    · intro hh; rw [h, hmod, hh]; simp
  · intro heq hh
    rw [h, hh, heq]
    simp

theorem C3_hits_monotone_witness :
    aboveThePaddle.hits + 1 < kUnsignedModulus ∧ hitCounted aboveThePaddle idle = true ∧
    aboveThePaddle.hits = 0 ∧ (tick aboveThePaddle idle).hits = 1 ∧
    hitCounted initial idle = false ∧ (tick initial idle).hits = initial.hits ∧
    counterAtMax.hits + 1 = kUnsignedModulus ∧ hitCounted counterAtMax idle = true ∧
    (tick counterAtMax idle).hits = 0 :=
  ⟨by decide, by decide, rfl,
    ((C3_hits_monotone aboveThePaddle idle).2.2.2.1 (by decide)).2 (by decide),
    by decide, (C3_hits_monotone initial idle).2.2.1 (by decide),
    by decide, by decide,
    (C3_hits_monotone counterAtMax idle).2.2.2.2 (by decide) (by decide)⟩

/-- C4: in every active iteration in which the moved ball rectangle intersects
the paddle rectangle, afterwards `ball.y = paddle.y - ball.h` exactly and
`ball_dy = -kBallSpeed`, whatever `ball_dy` was before, and the hit counter has
been incremented (modulo `2 ^ 32`). -/
theorem C4_hit_snaps_ball_on_paddle (s : GameState) (i : TickInput)
    (hhit : hitCounted s i = true) :
    (tick s i).ball.y = (tick s i).paddle.y - (tick s i).ball.h ∧
    (tick s i).paddle.y = s.paddle.y ∧ (tick s i).ball.h = s.ball.h ∧
    (tick s i).ball_dy = -kBallSpeed ∧
    (tick s i).hits = (s.hits + 1) % kUnsignedModulus :=
  tick_hit_fields s i hhit

/-- The scenario of C4: paddle at x = 350 of width 100, moved ball overlapping
it at y = paddle.y - 1; the iteration takes `hits` from 0 to 1, puts the ball
at `paddle.y - ball.h` and sets `ball_dy` to `-kBallSpeed`. -/
theorem C4_hit_snaps_ball_on_paddle_witness :
    hitCounted aboveThePaddle idle = true ∧
    aboveThePaddle.paddle.x = 350 ∧ aboveThePaddle.paddle.w = 100 ∧
    (beforeCollision (pollEvents aboveThePaddle idle.events) idle.left idle.right).ball.y
      = aboveThePaddle.paddle.y - 1 ∧
    aboveThePaddle.hits = 0 ∧ (tick aboveThePaddle idle).hits = 1 ∧
    (tick aboveThePaddle idle).ball.y
      = (tick aboveThePaddle idle).paddle.y - (tick aboveThePaddle idle).ball.h ∧
    (tick aboveThePaddle idle).ball_dy = -kBallSpeed :=
  have h := C4_hit_snaps_ball_on_paddle aboveThePaddle idle (by decide)
  ⟨by decide, by decide, by decide, by decide, rfl, by decide, h.1, h.2.2.2.1⟩

/-- C5: in every active iteration the loss branch is taken, i.e. "You lost!"
is written and `running` is set to false, if and only if `ball.y` at the end
of the physics step is strictly greater than `kWindowHeight = 600`; otherwise
nothing is written and `running` keeps the value the event drain left, also
when the ball touched a wall or hit the paddle in that iteration. -/
theorem C5_loss_iff_below_window (s : GameState) (i : TickInput) (ha : active s i = true) :
    (lossFires s i = true ↔ (tick s i).ball.y > kWindowHeight) ∧
    ((tick s i).cout = s.cout ++ [lostMessage] ↔ (tick s i).ball.y > kWindowHeight) ∧
    ((tick s i).ball.y > kWindowHeight → (tick s i).running = false) ∧
    (¬ (tick s i).ball.y > kWindowHeight →
      (tick s i).cout = s.cout ∧ (tick s i).running = (pollEvents s i.events).running) ∧
    kWindowHeight = 600 := by
  obtain ⟨h1, h2, h3⟩ := tick_active_loss s i ha
  refine ⟨h3, ?_, ?_, ?_, rfl⟩
  · by_cases hy : (tick s i).ball.y > kWindowHeight
    · simp [h2, hy]
    · simp [h2, hy]
  · intro hy; rw [h1]; simp [hy]
  · intro hy; rw [h1, h2]; simp [hy]

theorem C5_loss_iff_below_window_witness :
    active fallingBesideThePaddle idle = true ∧
    (tick fallingBesideThePaddle idle).ball.y = 605 ∧
    (tick fallingBesideThePaddle idle).cout = fallingBesideThePaddle.cout ++ [lostMessage] ∧
    (tick fallingBesideThePaddle idle).running = false ∧
    hitCounted aboveThePaddle idle = true ∧
    (tick aboveThePaddle idle).ball.y = 550 ∧
    (tick aboveThePaddle idle).cout = aboveThePaddle.cout ∧
    (tick aboveThePaddle idle).running = true :=
  have h1 := C5_loss_iff_below_window fallingBesideThePaddle idle (by decide)
  have h2 := (C5_loss_iff_below_window aboveThePaddle idle (by decide)).2.2.2.1 (by decide)
  ⟨by decide, by decide, h1.2.1.mpr (by decide), h1.2.2.1 (by decide), by decide, by decide,
    h2.1, h2.2.trans (by decide)⟩

/-- C6: in a run from the initial state, for every iteration the loop executes
(`running` holds when it starts), whether the event drain leaves `paused` true
or false and whatever `dark_mode` is: if `ball.y` exceeds `kWindowHeight = 600`
at the end of the iteration, e.g. is 601, then `running` is false after it and
"You lost!" has been written by it. The same holds from every state for every
iteration whose event drain leaves `paused` false. -/
theorem C6_loss_below_window (inputs : List TickInput) (i : TickInput) (s : GameState) :
    ((mainLoop initial inputs).running = true →
      (tick (mainLoop initial inputs) i).ball.y > kWindowHeight →
      (tick (mainLoop initial inputs) i).running = false ∧
      (tick (mainLoop initial inputs) i).cout = (mainLoop initial inputs).cout ++ [lostMessage]) ∧
    (active s i = true → (tick s i).ball.y > kWindowHeight →
      (tick s i).running = false ∧ (tick s i).cout = s.cout ++ [lostMessage]) ∧
    kWindowHeight = 600 := by
  have key : ∀ t : GameState, active t i = true → (tick t i).ball.y > kWindowHeight →
      (tick t i).running = false ∧ (tick t i).cout = t.cout ++ [lostMessage] := by
    intro t ha hy
    obtain ⟨h1, h2, -⟩ := tick_active_loss t i ha
    rw [h1, h2]
    simp [hy]
  refine ⟨?_, key s, rfl⟩
  intro hr hy
  obtain ⟨-, hY⟩ := mainLoop_inv inputs
  have hle := hY.2.2.2.2.2.2.2.2 hr
  cases ha : active (mainLoop initial inputs) i
  · exfalso
    obtain ⟨-, f2, -⟩ := pollEvents_frame i.events (mainLoop initial inputs)
    rw [tick_paused _ i ha, f2] at hy
    simp only [kWindowHeight] at hy
    omega
  · exact key _ ha hy

set_option maxRecDepth 100000 in
/-- A run that ends by losing the ball: after `missedBallInputs` the loop is
running and paused with the ball at y = 600; the next iteration receives a
key-down of P, moves the ball to y = 605, clears `running` and writes
"You lost!". -/
theorem C6_loss_below_window_witness :
    (mainLoop initial missedBallInputs).running = true ∧
    (mainLoop initial missedBallInputs).paused = true ∧
    (tick (mainLoop initial missedBallInputs) pressPause).ball.y = 605 ∧
    (tick (mainLoop initial missedBallInputs) pressPause).running = false ∧
    (tick (mainLoop initial missedBallInputs) pressPause).cout = [lostMessage] :=
  have h := (C6_loss_below_window missedBallInputs pressPause initial).1 (by decide) (by decide)
  ⟨by decide, by decide, by decide, h.1, h.2.trans (by decide)⟩

/-- C7: in every iteration whose event drain leaves `paused` true, the paddle
rectangle, the ball rectangle, the ball velocity and the hit counter are the
same after the iteration as before; `dark_mode` is flipped once for every
key-down event of the mode-toggle key in that iteration (so one such event
flips it), and a quit event in that iteration leaves `running` false. -/
theorem C7_pause_freezes_physics (s : GameState) (i : TickInput)
    (hp : (pollEvents s i.events).paused = true) :
    (tick s i).paddle = s.paddle ∧ (tick s i).ball = s.ball ∧
    (tick s i).ball_dx = s.ball_dx ∧ (tick s i).ball_dy = s.ball_dy ∧
    (tick s i).hits = s.hits ∧ (tick s i).cout = s.cout ∧
    (tick s i).dark_mode =
      (if i.events.countP isModeToggle % 2 = 1 then !s.dark_mode else s.dark_mode) ∧
    ((∃ e ∈ i.events, e.type = SDL_QUIT) → (tick s i).running = false) := by
  have ha : active s i = false := by simp [active, hp]
  rw [tick_paused s i ha]
  obtain ⟨f1, f2, f3, f4, f5, f6⟩ := pollEvents_frame i.events s
  exact ⟨f1, f2, f3, f4, f5, f6, pollEvents_dark_mode i.events s, pollEvents_quit i.events s⟩

theorem C7_pause_freezes_physics_witness :
    (pollEvents initial pauseToggleQuit.events).paused = true ∧
    (tick initial pauseToggleQuit).paddle = initial.paddle ∧
    (tick initial pauseToggleQuit).ball = initial.ball ∧
    (tick initial pauseToggleQuit).hits = initial.hits ∧
    (tick initial pauseToggleQuit).dark_mode = !initial.dark_mode ∧
    (tick initial pauseToggleQuit).running = false :=
  have h := C7_pause_freezes_physics initial pauseToggleQuit (by decide)
  ⟨by decide, h.1, h.2.1, h.2.2.2.2.1, by decide,
    h.2.2.2.2.2.2.2 ⟨quitEvent, by decide, rfl⟩⟩

/-- C8: in every active iteration in which both the move-left and the
move-right key are held, the iteration is the one with only move-left held:
`paddle.x` becomes `max 0 (paddle.x - kPaddleSpeed)`, and for `paddle.x > 0`
it decreases, so the two movements are not added together. -/
theorem C8_left_takes_priority (s : GameState) (i : TickInput)
    (ha : active s i = true) (hl : i.left = true) (_hr : i.right = true) :
    tick s i = tick s { i with right := false } ∧
    (tick s i).paddle.x = max 0 (s.paddle.x - kPaddleSpeed) ∧
    (0 < s.paddle.x → (tick s i).paddle.x < s.paddle.x) := by
  obtain ⟨f1, -⟩ := pollEvents_frame i.events s
  obtain ⟨p1, -⟩ := physics_horizontal (pollEvents s i.events) i.left i.right
  have mx := movePaddle_x (pollEvents s i.events) i.left i.right
  have hx : (tick s i).paddle.x = max 0 (s.paddle.x - kPaddleSpeed) := by
    rw [tick_active s i ha, p1, mx, hl, f1]
    simp only [kPaddleSpeed, if_true]
    split_ifs <;> omega
  refine ⟨?_, hx, ?_⟩
  · simp [tick, physics, beforeCollision, movePaddle, hl]
  · intro hpos
    rw [hx]
    simp only [kPaddleSpeed]
    omega

theorem C8_left_takes_priority_witness :
    active initial bothKeys = true ∧ bothKeys.left = true ∧ bothKeys.right = true ∧
    initial.paddle.x = 350 ∧ (tick initial bothKeys).paddle.x = 340 :=
  ⟨by decide, rfl, rfl, by decide,
    (C8_left_takes_priority initial bothKeys (by decide) rfl rfl).2.1.trans (by decide)⟩

/-- C9 (the code differs from its help text): the help text announces M for
the light/dark mode and ESC for leaving the game, but the event handler
ignores a key-down of M and a key-down of ESC in every state; the mode is
toggled by a key-down of S and `running` is cleared by a quit event only. The
P binding is the one announced: a key-down of P toggles `paused`. -/
theorem C9_help_keys_not_handled (s : GameState) :
    "  M         Change between light/dark mode\n" ∈ helpText ∧
    "  ESC       Leave the game\n" ∈ helpText ∧
    handleEvent s (keyDown SDLK_m) = s ∧
    handleEvent s (keyDown SDLK_ESCAPE) = s ∧
    (tick initial (pressKey SDLK_m)).dark_mode = initial.dark_mode ∧
    (tick initial (pressKey SDLK_ESCAPE)).running = true ∧
    (handleEvent s (keyDown SDLK_s)).dark_mode = !s.dark_mode ∧
    (handleEvent s quitEvent).running = false ∧
    (handleEvent s (keyDown SDLK_p)).paused = !s.paused := by
  refine ⟨by decide, by decide, ?_, ?_, by decide, by decide, ?_, ?_, ?_⟩ <;>
    simp [handleEvent, keyDown, quitEvent, SDL_QUIT, SDL_KEYDOWN, SDLK_m, SDLK_s, SDLK_p,
      SDLK_ESCAPE]

/-- C10: after an active iteration that counted a paddle hit, the ball rectangle
does not intersect the paddle rectangle: its bottom edge `ball.y + ball.h`
is the top edge `paddle.y` of the paddle. The next active iteration, after any
number of paused ones and whatever keys it reads, counts no hit and leaves the
hit counter as it is. -/
theorem C10_no_double_hit (s : GameState) (i1 : TickInput) (js : List TickInput)
    (i2 : TickInput) (hhit : hitCounted s i1 = true)
    (hp : allPaused (tick s i1) js = true) :
    SDL_HasIntersection (tick s i1).ball (tick s i1).paddle = false ∧
    (tick s i1).ball.y + (tick s i1).ball.h = (tick s i1).paddle.y ∧
    hitCounted (ticks (tick s i1) js) i2 = false ∧
    (tick (ticks (tick s i1) js) i2).hits = (tick s i1).hits := by
  obtain ⟨c1, -, -, c4, -⟩ := tick_hit_fields s i1 hhit
  obtain ⟨t1, t2, -, t4, t5⟩ := allPaused_frame js _ hp
  have hno : hitCounted (ticks (tick s i1) js) i2 = false := by
    apply hitCounted_false_of_above
    rw [t1, t2, t4, c4, c1]
    simp only [kBallSpeed]
    omega
  refine ⟨?_, by rw [c1]; omega, hno, ?_⟩
  · apply SDL_HasIntersection_above
    rw [c1]; omega
  · rw [tick_hits, hno, t5]
    simp

theorem C10_no_double_hit_witness :
    hitCounted aboveThePaddle idle = true ∧
    allPaused (tick aboveThePaddle idle) [pressPause, holdLeft] = true ∧
    (tick aboveThePaddle idle).hits = 1 ∧
    hitCounted (ticks (tick aboveThePaddle idle) [pressPause, holdLeft]) pressPause = false ∧
    (tick (ticks (tick aboveThePaddle idle) [pressPause, holdLeft]) pressPause).hits = 1 :=
  have h := C10_no_double_hit aboveThePaddle idle [pressPause, holdLeft] pressPause
    (by decide) (by decide)
  ⟨by decide, by decide, by decide, h.2.2.1, h.2.2.2.trans (by decide)⟩

end SinglePaddle
